import Mathlib

/-!
Shallow embedding of the two payment-verification handlers in
src/api/verify-crypto.js: the crypto payment verifier (default handler,
fetchTxReceipt, verifyUSDCTransfer) and the card-payment webhook handler.
JavaScript strings are Lean strings, JS numbers that hold token amounts are
Nat (all amounts involved are far below 2^53 so parseInt is exact there),
dollar amounts reported to the client are rationals, absent JS fields are
Option, and a thrown JS exception is the error branch of Except.
-/

namespace FelixCraft

/-- USDC contract address on Base (constant USDC_CONTRACT in the source). -/
def USDC_CONTRACT : String := "0x833589fCD6eDb6E08f4c7C32D4f71b54bdA02913"

/-- Minimum accepted amount in 6-decimal USDC units (MIN_AMOUNT). -/
def MIN_AMOUNT : Nat := 28000000

/-- Maximum accepted amount in 6-decimal USDC units (MAX_AMOUNT). -/
def MAX_AMOUNT : Nat := 35000000

/-- Fixed download URL returned on success (DOWNLOAD_URL). -/
def DOWNLOAD_URL : String := "https://felixcraft.ai/dl/c5768e3409026bab01bb1649.pdf"

/-- Fixed thank-you page URL returned on success (THANK_YOU_URL). -/
def THANK_YOU_URL : String := "https://felixcraft.ai/168a1eb2dd92fd596ac191d4"

/-- Keccak hash of the Transfer(address,address,uint256) signature
(TRANSFER_TOPIC inside verifyUSDCTransfer). -/
def TRANSFER_TOPIC : String :=
  "0xddf252ad1be2c89b69c2b068fc378daa952ba7f163c4a11628f55a4df523b3ef"

/-- Hexadecimal digit test, as the character class [a-fA-F0-9]. -/
def isHexChar (c : Char) : Bool :=
  c.isDigit || ('a' ≤ c && c ≤ 'f') || ('A' ≤ c && c ≤ 'F')

/-- Value of a hexadecimal digit. -/
def hexVal (c : Char) : Nat :=
  if c.isDigit then c.toNat - '0'.toNat
  else if 'a' ≤ c && c ≤ 'f' then c.toNat - 'a'.toNat + 10
  else c.toNat - 'A'.toNat + 10

/-- Lowercasing character by character, as toLowerCase acts on the ASCII
hex strings involved; structural so the kernel can evaluate it (the
Batteries String.toLower is defined by well-founded recursion). -/
def strToLower (s : String) : String := String.mk (s.data.map Char.toLower)

/-- Dropping the first n characters of a string, as the source's
.slice(n); structural for kernel evaluation. -/
def strDrop (s : String) (n : Nat) : String := String.mk (s.data.drop n)

/-- JavaScript parseInt(s, 16) on the receipt's data field: an optional 0x
marker is skipped, then the longest run of leading hex digits is read; no
digits gives NaN, modelled as none. (Exact for values below 2^53; every
amount the claims involve is below 36 million.) -/
def parseIntHex (s : String) : Option Nat :=
  let t := match s.data with
    | '0' :: x :: rest => if x = 'x' || x = 'X' then rest else s.data
    | _ => s.data
  let digits := t.takeWhile isHexChar
  if digits.isEmpty then none
  else some (digits.foldl (fun acc c => 16 * acc + hexVal c) 0)

/-- Test of the transaction-hash pattern; embeds the anchored regular
expression 0x[a-fA-F0-9]{64} from the source: the string is the two
characters 0x followed by exactly 64 hex digits. -/
def txHashPatternTest (s : String) : Bool :=
  match s.data with
  | '0' :: 'x' :: rest => rest.length = 64 && rest.all isHexChar
  | _ => false

/-- Splitting a character list at every occurrence of a separator, as
String.splitOn does for a one-character separator. -/
def splitAtChar (sep : Char) : List Char → List (List Char)
  | [] => [[]]
  | c :: cs =>
    let r := splitAtChar sep cs
    if c = sep then [] :: r
    else
      match r with
      | [] => [[c]]
      | h :: t => (c :: h) :: t

/-- Test of the basic email pattern from the source (one @ between two
nonempty halves, no whitespace anywhere, and the part after the @ contains
a dot that is neither its first nor its last character). -/
def emailPatternTest (s : String) : Bool :=
  match splitAtChar '@' s.data with
  | [a, b] =>
      !a.isEmpty && a.all (fun c => !c.isWhitespace) &&
      b.all (fun c => !c.isWhitespace) &&
      ((b.drop 1).dropLast.contains '.')
  | _ => false

/-- JavaScript truthiness of an optional string field: an absent field and
the empty string are falsy. -/
def jsTruthyStr : Option String → Bool
  | some s => s ≠ ""
  | none => false

/-- JavaScript a || b on two optional string fields. -/
def jsStrOr (a b : Option String) : Option String :=
  match a with
  | some s => if s = "" then b else some s
  | none => b

/-- One emitted contract event from a receipt (EventLog); topics is Option
because a log object may lack the field (the source tests !log.topics). -/
structure EventLog where
  address : String
  topics : Option (List String)
  data : String
deriving DecidableEq, Repr

/-- A transaction receipt as returned by eth_getTransactionReceipt. -/
structure Receipt where
  status : String
  logs : Option (List EventLog)
deriving DecidableEq, Repr

/-- Reason attached to an invalid verification result; belowRequired keeps
the offending amount that the source interpolates into its message. -/
inductive Reason where
  | belowRequired (amountMinor : Nat)
  | noValidTransfer
deriving DecidableEq, Repr

/-- Outcome of verifyUSDCTransfer ({ valid, amount?, reason? }). -/
structure VerificationResult where
  valid : Bool
  amount : Option ℚ := none
  reason : Option Reason := none
deriving DecidableEq, Repr

/-- The low 20 bytes of the third topic, as the source computes the
destination: drop the first 26 characters (0x plus 24 hex digits of
padding) and lowercase, then put 0x back in front. -/
def deriveToAddress (topic2 : String) : String :=
  "0x" ++ strToLower (strDrop topic2 26)

/-- What one iteration of the verifyUSDCTransfer loop does with one log:
move on to the next log, throw (topics[2] is undefined and .slice throws),
or return a result. -/
inductive StepResult where
  | next
  | thrown
  | done (r : VerificationResult)
deriving DecidableEq, Repr

/-- Body of the verifyUSDCTransfer loop for a single log, in source order:
emitter-address check, Transfer-topic check, destination derivation from
topics[2] (throws when the topics array is shorter than three), optional
receiving-wallet check, then the amount classification. An amount above
MAX_AMOUNT (or unparseable data, NaN) falls through to the next log. -/
def stepLog (receivingWallet : String) (log : EventLog) : StepResult :=
  if strToLower log.address ≠ strToLower USDC_CONTRACT then .next
  else
    match log.topics with
    | none => .next
    | some topics =>
      if topics[0]? ≠ some TRANSFER_TOPIC then .next
      else
        match topics[2]? with
        | none => .thrown
        | some topic2 =>
          let toAddress := deriveToAddress topic2
          if receivingWallet ≠ "" ∧ toAddress ≠ receivingWallet then .next
          else
            match parseIntHex log.data with
            | none => .next
            | some amount =>
              if MIN_AMOUNT ≤ amount ∧ amount ≤ MAX_AMOUNT then
                .done { valid := true, amount := some ((amount : ℚ) / 1000000) }
              else if amount < MIN_AMOUNT then
                .done { valid := false, reason := some (.belowRequired amount) }
              else .next

/-- The scan over receipt.logs in verifyUSDCTransfer: first log whose step
returns a result wins; exhausting the list yields the
no-valid-transfer-found failure. -/
def scanLogs (receivingWallet : String) : List EventLog → Except Unit VerificationResult
  | [] => .ok { valid := false, reason := some .noValidTransfer }
  | log :: rest =>
    match stepLog receivingWallet log with
    | .next => scanLogs receivingWallet rest
    | .thrown => .error ()
    | .done r => .ok r

/-- verifyUSDCTransfer from the source: scan receipt.logs (an absent logs
field scans the empty list, receipt.logs || []). The receiving wallet is the
already-lowercased RECEIVING_WALLET configuration value; the empty string
means not configured. -/
def verifyUSDCTransfer (receivingWallet : String) (receipt : Receipt) :
    Except Unit VerificationResult :=
  scanLogs receivingWallet (receipt.logs.getD [])

/-- Parsed JSON body of a crypto-verifier request: the two destructured
fields, each possibly absent. -/
structure CryptoBody where
  email : Option String
  txHash : Option String
deriving DecidableEq, Repr

/-- Error payload of a crypto-verifier response, one constructor per
distinct error message in the source. -/
inductive ErrorBody where
  | methodNotAllowed
  | invalidJsonBody
  | emailAndTxHashRequired
  | invalidTxHashFormat
  | invalidEmailFormat
  | txNotFoundOrFailed
  | verificationReason (r : Reason)
  | verificationFailedGeneric
deriving DecidableEq, Repr

/-- A crypto-verifier HTTP response: status plus the JSON body fields the
source sets. -/
structure CryptoResponse where
  status : Nat
  success : Bool := false
  downloadUrl : Option String := none
  thankYouUrl : Option String := none
  error : Option ErrorBody := none
deriving DecidableEq, Repr

/-- Observable outcome of one crypto-verifier request: the response plus
whether the RPC fetch was reached and how many email sends were attempted. -/
structure CryptoOutcome where
  response : CryptoResponse
  rpcCalled : Bool
  emailAttempts : Nat
deriving DecidableEq, Repr

/-- The external world as the crypto handler sees it: the result of the
receipt fetch (error = the fetch or response parsing threw, ok none = RPC
returned null) and whether the email dispatch succeeds. -/
structure CryptoEnv where
  rpcResult : Except Unit (Option Receipt)
  emailSendOk : Bool
deriving Repr

/-- The crypto-verifier handler from the source, after body acquisition:
OPTIONS preflight, method check, JSON-parse outcome (none = parse threw),
presence check on both fields, hash format, email format, then the guarded
try block: fetch receipt, status check, verifyUSDCTransfer, email dispatch
(its failure is swallowed) and the success response; any throw inside the
try block becomes the generic 500. -/
def cryptoHandler (receivingWallet : String) (env : CryptoEnv)
    (method : String) (body : Option CryptoBody) : CryptoOutcome :=
  if method = "OPTIONS" then
    { response := { status := 200 }, rpcCalled := false, emailAttempts := 0 }
  else if method ≠ "POST" then
    { response := { status := 405, error := some .methodNotAllowed },
      rpcCalled := false, emailAttempts := 0 }
  else
    match body with
    | none =>
      { response := { status := 400, error := some .invalidJsonBody },
        rpcCalled := false, emailAttempts := 0 }
    | some b =>
      if ¬ (jsTruthyStr b.email = true ∧ jsTruthyStr b.txHash = true) then
        { response := { status := 400, error := some .emailAndTxHashRequired },
          rpcCalled := false, emailAttempts := 0 }
      else if txHashPatternTest (b.txHash.getD "") = false then
        { response := { status := 400, error := some .invalidTxHashFormat },
          rpcCalled := false, emailAttempts := 0 }
      else if emailPatternTest (b.email.getD "") = false then
        { response := { status := 400, error := some .invalidEmailFormat },
          rpcCalled := false, emailAttempts := 0 }
      else
        match env.rpcResult with
        | .error _ =>
          { response := { status := 500, error := some .verificationFailedGeneric },
            rpcCalled := true, emailAttempts := 0 }
        | .ok none =>
          { response := { status := 400, error := some .txNotFoundOrFailed },
            rpcCalled := true, emailAttempts := 0 }
        | .ok (some receipt) =>
          if receipt.status ≠ "0x1" then
            { response := { status := 400, error := some .txNotFoundOrFailed },
              rpcCalled := true, emailAttempts := 0 }
          else
            match verifyUSDCTransfer receivingWallet receipt with
            | .error _ =>
              { response := { status := 500, error := some .verificationFailedGeneric },
                rpcCalled := true, emailAttempts := 0 }
            | .ok transfer =>
              if transfer.valid = false then
                { response :=
                    { status := 400,
                      error := transfer.reason.map ErrorBody.verificationReason },
                  rpcCalled := true, emailAttempts := 0 }
              else
                { response :=
                    { status := 200, success := true,
                      downloadUrl := some DOWNLOAD_URL,
                      thankYouUrl := some THANK_YOU_URL },
                  rpcCalled := true, emailAttempts := 1 }

/-- The checkout session object of a card webhook event: the total in minor
units and the two email fields (customer_details may be absent, hence the
optional chaining in the source). -/
structure Session where
  amount_total : Int
  customerDetailsEmail : Option String
  customer_email : Option String
deriving DecidableEq, Repr

/-- A verified webhook event: its type string and the session payload. -/
structure StripeEvent where
  type : String
  session : Session
deriving DecidableEq, Repr

/-- Error payload of a card-webhook response. -/
inductive CardError where
  | methodNotAllowed
  | webhookSignature
  | noCustomerEmail
  | failedToSendEmail
deriving DecidableEq, Repr

/-- A card-webhook HTTP response with the JSON body flags the source sets. -/
structure CardResponse where
  status : Nat
  received : Bool := false
  skipped : Bool := false
  emailSent : Bool := false
  error : Option CardError := none
deriving DecidableEq, Repr

/-- Observable outcome of one card-webhook request. -/
structure CardOutcome where
  response : CardResponse
  emailAttempts : Nat
deriving DecidableEq, Repr

/-- The card-payment webhook handler from the source: method check,
signature verification (error = constructEvent threw), then for a
checkout.session.completed event the amount band check, email extraction
with fallback, and the email dispatch whose failure is answered with a 500;
all other event types are acknowledged with 200. -/
def cardHandler (method : String) (event : Except Unit StripeEvent)
    (emailSendOk : Bool) : CardOutcome :=
  if method ≠ "POST" then
    { response := { status := 405, error := some .methodNotAllowed }, emailAttempts := 0 }
  else
    match event with
    | .error _ =>
      { response := { status := 400, error := some .webhookSignature }, emailAttempts := 0 }
    | .ok ev =>
      if ev.type = "checkout.session.completed" then
        if ev.session.amount_total < 2800 ∨ ev.session.amount_total > 3100 then
          { response := { status := 200, received := true, skipped := true },
            emailAttempts := 0 }
        else
          let customerEmail :=
            jsStrOr ev.session.customerDetailsEmail ev.session.customer_email
          if jsTruthyStr customerEmail = false then
            { response := { status := 400, error := some .noCustomerEmail },
              emailAttempts := 0 }
          else if emailSendOk then
            { response := { status := 200, received := true, emailSent := true },
              emailAttempts := 1 }
          else
            { response := { status := 500, error := some .failedToSendEmail },
              emailAttempts := 1 }
      else
        { response := { status := 200, received := true }, emailAttempts := 0 }

/-- A well-formed 32-byte transaction hash for concrete runs. -/
def sampleTxHash : String :=
  "0xaaaaaaaaaaaaaaaaaaaaaaaaaaaaaaaaaaaaaaaaaaaaaaaaaaaaaaaaaaaaaaaa"

/-- A well-formed email address for concrete runs. -/
def sampleEmail : String := "buyer@example.com"

/-- A request body passing all three input validations. -/
def sampleBody : CryptoBody := { email := some sampleEmail, txHash := some sampleTxHash }

/-- A third topic carrying a destination address in its low 20 bytes. -/
def sampleTopicTo : String :=
  "0x000000000000000000000000aabbccddeeff00112233445566778899aabbccdd"

/-- A matching Transfer log whose data decodes to 27000000 (0x19bfcc0). -/
def sampleLogBelow : EventLog :=
  { address := USDC_CONTRACT, topics := some [TRANSFER_TOPIC, sampleTopicTo, sampleTopicTo],
    data := "0x19bfcc0" }

/-- A matching Transfer log whose data decodes to 29000000 (0x1ba8140). -/
def sampleLogInBand : EventLog :=
  { address := USDC_CONTRACT, topics := some [TRANSFER_TOPIC, sampleTopicTo, sampleTopicTo],
    data := "0x1ba8140" }

/-- A matching Transfer log whose data decodes to 36000000 (0x2255100). -/
def sampleLogAbove : EventLog :=
  { address := USDC_CONTRACT, topics := some [TRANSFER_TOPIC, sampleTopicTo, sampleTopicTo],
    data := "0x2255100" }

/-- A log emitted by a different contract. -/
def sampleLogWrongAddr : EventLog :=
  { address := "0x0000000000000000000000000000000000000001",
    topics := some [TRANSFER_TOPIC, sampleTopicTo, sampleTopicTo], data := "0x1ba8140" }

/-- A matching log whose topics array has only one entry. -/
def sampleLogShortTopics : EventLog :=
  { address := USDC_CONTRACT, topics := some [TRANSFER_TOPIC], data := "0x1ba8140" }

/-- A checkout session at the expected price with a confirmed email. -/
def sampleSession : Session :=
  { amount_total := 2900, customerDetailsEmail := some "buyer@example.com",
    customer_email := none }

end FelixCraft

namespace FelixCraft

/-- C1: in the log scan, a first matching log (emitter, Transfer topic,
destination all pass) whose data decodes below MIN_AMOUNT makes the scan
return the invalid amount-below-required result immediately, whatever logs
follow; if instead the decoded amount is above MAX_AMOUNT the scan neither
accepts nor rejects and continues with the remaining logs. -/
theorem below_min_rejects_immediately_above_max_continues
    (wallet : String) (log : EventLog) (topics : List String) (topic2 : String)
    (amount : Nat) (rest : List EventLog)
    (haddr : strToLower log.address = strToLower USDC_CONTRACT)
    (htopics : log.topics = some topics)
    (ht0 : topics[0]? = some TRANSFER_TOPIC)
    (ht2 : topics[2]? = some topic2)
    (hdest : wallet = "" ∨ deriveToAddress topic2 = wallet)
    (hamt : parseIntHex log.data = some amount) :
    (amount < MIN_AMOUNT →
      scanLogs wallet (log :: rest) =
        .ok { valid := false, amount := none, reason := some (.belowRequired amount) }) ∧
    (MAX_AMOUNT < amount →
      scanLogs wallet (log :: rest) = scanLogs wallet rest) := by
  have hcond : ¬ (wallet ≠ "" ∧ deriveToAddress topic2 ≠ wallet) := by
    rcases hdest with h | h <;> simp [h]
  have hmm : MIN_AMOUNT ≤ MAX_AMOUNT := by norm_num [MIN_AMOUNT, MAX_AMOUNT]
  constructor
  · intro hlt
    have hnot : ¬ (MIN_AMOUNT ≤ amount ∧ amount ≤ MAX_AMOUNT) := by omega
    simp [scanLogs, stepLog, haddr, htopics, ht0, ht2, hcond, hamt, hnot, hlt]
  · intro hgt
    have hnot : ¬ (MIN_AMOUNT ≤ amount ∧ amount ≤ MAX_AMOUNT) := by omega
    have hnlt : ¬ (amount < MIN_AMOUNT) := by omega
    simp [scanLogs, stepLog, haddr, htopics, ht0, ht2, hcond, hamt, hnot, hnlt]

/-- Witness for C1 at concrete inputs: a matching log with amount 27000000
is rejected as below required even though a later log is in band, and a
matching log with amount 36000000 is passed over so that the later in-band
log is accepted. -/
theorem below_min_rejects_immediately_above_max_continues_witness :
    strToLower sampleLogBelow.address = strToLower USDC_CONTRACT ∧
    parseIntHex sampleLogBelow.data = some 27000000 ∧ 27000000 < MIN_AMOUNT ∧
    scanLogs "" [sampleLogBelow, sampleLogInBand] =
      .ok { valid := false, amount := none, reason := some (.belowRequired 27000000) } ∧
    parseIntHex sampleLogAbove.data = some 36000000 ∧ MAX_AMOUNT < 36000000 ∧
    scanLogs "" [sampleLogAbove, sampleLogInBand] = scanLogs "" [sampleLogInBand] :=
  ⟨by decide, by decide, by decide,
    (below_min_rejects_immediately_above_max_continues "" sampleLogBelow
      [TRANSFER_TOPIC, sampleTopicTo, sampleTopicTo] sampleTopicTo 27000000
      [sampleLogInBand] (by decide) rfl (by decide) (by decide) (.inl rfl)
      (by decide)).1 (by decide),
   by decide, by decide,
    (below_min_rejects_immediately_above_max_continues "" sampleLogAbove
      [TRANSFER_TOPIC, sampleTopicTo, sampleTopicTo] sampleTopicTo 36000000
      [sampleLogInBand] (by decide) rfl (by decide) (by decide) (.inl rfl)
      (by decide)).2 (by decide)⟩

end FelixCraft

namespace FelixCraft

/-- C5: a log is skipped by the scan whenever any of the three checks
fails: its emitter (lowercased) differs from the token contract, its first
topic differs from the Transfer signature hash, or a receiving wallet is
configured and the low 20 bytes of its third topic differ from it; the
scan result on such a log followed by other logs is the scan result on the
other logs alone. -/
theorem log_failing_any_check_is_skipped
    (wallet : String) (log : EventLog) (rest : List EventLog)
    (h : strToLower log.address ≠ strToLower USDC_CONTRACT
       ∨ (∀ ts, log.topics = some ts → ts[0]? ≠ some TRANSFER_TOPIC)
       ∨ (∃ ts topic2, log.topics = some ts ∧ ts[2]? = some topic2 ∧
            wallet ≠ "" ∧ deriveToAddress topic2 ≠ wallet)) :
    scanLogs wallet (log :: rest) = scanLogs wallet rest := by
  have hstep : stepLog wallet log = .next := by
    rcases h with h | h | h
    · simp [stepLog, h]
    · by_cases ha : strToLower log.address = strToLower USDC_CONTRACT
      · rcases htop : log.topics with _ | ts
        · simp [stepLog, htop]
        · simp [stepLog, ha, htop, h ts htop]
      · simp [stepLog, ha]
    · obtain ⟨ts, topic2, hts, ht2, hw, hne⟩ := h
      by_cases ha : strToLower log.address = strToLower USDC_CONTRACT
      · by_cases h0 : ts[0]? = some TRANSFER_TOPIC
        · simp [stepLog, ha, hts, h0, ht2, hw, hne]
        · simp [stepLog, ha, hts, h0]
      · simp [stepLog, ha]
  simp [scanLogs, hstep]

/-- Witness for C5 at a concrete input: a log from a different contract is
skipped and the scan accepts the in-band log that follows it. -/
theorem log_failing_any_check_is_skipped_witness :
    strToLower sampleLogWrongAddr.address ≠ strToLower USDC_CONTRACT ∧
    scanLogs "" [sampleLogWrongAddr, sampleLogInBand] = scanLogs "" [sampleLogInBand] :=
  ⟨by decide,
    log_failing_any_check_is_skipped "" sampleLogWrongAddr [sampleLogInBand]
      (.inl (by decide))⟩

end FelixCraft

namespace FelixCraft

/-- C8: when every log of the receipt falls through the scan (fails the
emitter, topic or destination checks, or matches but carries an amount
above MAX_AMOUNT or unparseable data) — in particular when the logs field
is empty or absent — verification returns the invalid
no-valid-transfer-found result, and the handler surfaces it as a 400. -/
theorem no_qualifying_log_yields_no_valid_transfer_400
    (wallet : String) (logsField : Option (List EventLog)) (ok : Bool)
    (e h : String) (hne : e ≠ "") (hnh : h ≠ "")
    (he : emailPatternTest e = true) (hh : txHashPatternTest h = true)
    (hall : ∀ l ∈ logsField.getD [], stepLog wallet l = .next) :
    verifyUSDCTransfer wallet { status := "0x1", logs := logsField } =
      .ok { valid := false, amount := none, reason := some .noValidTransfer } ∧
    cryptoHandler wallet
        { rpcResult := .ok (some { status := "0x1", logs := logsField }),
          emailSendOk := ok }
        "POST" (some { email := some e, txHash := some h }) =
      { response :=
          { status := 400,
            error := some (.verificationReason .noValidTransfer) },
        rpcCalled := true, emailAttempts := 0 } := by
  have hscan : ∀ logs : List EventLog, (∀ l ∈ logs, stepLog wallet l = .next) →
      scanLogs wallet logs =
        .ok { valid := false, amount := none, reason := some .noValidTransfer } := by
    intro logs
    induction logs with
    | nil => intro _; rfl
    | cons l rest ih =>
      intro hl
      have h1 : stepLog wallet l = .next := hl l (List.mem_cons_self l rest)
      have h2 := ih (fun x hx => hl x (List.mem_cons_of_mem l hx))
      simp [scanLogs, h1, h2]
  have hver : verifyUSDCTransfer wallet { status := "0x1", logs := logsField } =
      .ok { valid := false, amount := none, reason := some .noValidTransfer } := by
    simpa [verifyUSDCTransfer] using hscan (logsField.getD []) hall
  refine ⟨hver, ?_⟩
  simp +decide [cryptoHandler, jsTruthyStr, hne, hnh, hh, he, hver]

/-- Witness for C8 at a concrete input: a receipt holding only a
wrong-contract log and a matching log with amount 36000000 (above
MAX_AMOUNT) is answered with the no-valid-transfer 400. -/
theorem no_qualifying_log_yields_no_valid_transfer_400_witness :
    sampleEmail ≠ "" ∧ sampleTxHash ≠ "" ∧
    emailPatternTest sampleEmail = true ∧ txHashPatternTest sampleTxHash = true ∧
    (∀ l ∈ (some [sampleLogWrongAddr, sampleLogAbove] :
        Option (List EventLog)).getD [], stepLog "" l = .next) ∧
    cryptoHandler ""
        { rpcResult := .ok (some
            { status := "0x1", logs := some [sampleLogWrongAddr, sampleLogAbove] }),
          emailSendOk := true }
        "POST" (some { email := some sampleEmail, txHash := some sampleTxHash }) =
      { response :=
          { status := 400,
            error := some (.verificationReason .noValidTransfer) },
        rpcCalled := true, emailAttempts := 0 } :=
  ⟨by decide, by decide, by decide, by decide, by decide,
    (no_qualifying_log_yields_no_valid_transfer_400 ""
      (some [sampleLogWrongAddr, sampleLogAbove]) true sampleEmail sampleTxHash
      (by decide) (by decide) (by decide) (by decide) (by decide)).2⟩

/-- C10: a log whose emitter matches the token contract and whose first
topic is the Transfer signature but whose topics array has fewer than
three entries makes verification throw (the third-topic slice on an
undefined value), and the handler answers with the generic 500 escape
hatch rather than a 400. -/
theorem short_topics_matching_log_throws_500
    (wallet : String) (log : EventLog) (topics : List String)
    (rest : List EventLog) (ok : Bool)
    (e h : String) (hne : e ≠ "") (hnh : h ≠ "")
    (he : emailPatternTest e = true) (hh : txHashPatternTest h = true)
    (haddr : strToLower log.address = strToLower USDC_CONTRACT)
    (htopics : log.topics = some topics)
    (ht0 : topics[0]? = some TRANSFER_TOPIC)
    (hlen : topics.length < 3) :
    verifyUSDCTransfer wallet { status := "0x1", logs := some (log :: rest) } =
      .error () ∧
    cryptoHandler wallet
        { rpcResult := .ok (some { status := "0x1", logs := some (log :: rest) }),
          emailSendOk := ok }
        "POST" (some { email := some e, txHash := some h }) =
      { response := { status := 500, error := some .verificationFailedGeneric },
        rpcCalled := true, emailAttempts := 0 } := by
  have ht2 : topics[2]? = none := by
    rw [List.getElem?_eq_none_iff]
    omega
  have hstep : stepLog wallet log = .thrown := by
    simp [stepLog, haddr, htopics, ht0, ht2]
  have hver : verifyUSDCTransfer wallet
      { status := "0x1", logs := some (log :: rest) } = .error () := by
    simp [verifyUSDCTransfer, scanLogs, hstep]
  refine ⟨hver, ?_⟩
  simp +decide [cryptoHandler, jsTruthyStr, hne, hnh, hh, he, hver]

/-- Witness for C10 at a concrete input: a matching log whose topics array
holds only the Transfer signature makes the handler answer 500. -/
theorem short_topics_matching_log_throws_500_witness :
    strToLower sampleLogShortTopics.address = strToLower USDC_CONTRACT ∧
    sampleLogShortTopics.topics = some [TRANSFER_TOPIC] ∧
    ([TRANSFER_TOPIC] : List String).length < 3 ∧
    cryptoHandler ""
        { rpcResult := .ok (some
            { status := "0x1", logs := some [sampleLogShortTopics] }),
          emailSendOk := true }
        "POST" (some { email := some sampleEmail, txHash := some sampleTxHash }) =
      { response := { status := 500, error := some .verificationFailedGeneric },
        rpcCalled := true, emailAttempts := 0 } :=
  ⟨by decide, rfl, by decide,
    (short_topics_matching_log_throws_500 "" sampleLogShortTopics [TRANSFER_TOPIC]
      [] true sampleEmail sampleTxHash (by decide) (by decide) (by decide)
      (by decide) (by decide) rfl (by decide) (by decide)).2⟩

end FelixCraft

namespace FelixCraft

/-- C2 counterexample: for a verified checkout-completed event at the
expected in-band amount 2900 with a confirmed email, a failing email
dispatch makes the card handler answer 500 Failed-to-send-email, not the
200 acknowledgment the claim states. -/
theorem card_dispatch_failure_not_acknowledged_counterexample :
    (cardHandler "POST"
        (.ok { type := "checkout.session.completed", session := sampleSession })
        false).response =
      { status := 500, error := some .failedToSendEmail } ∧
    (cardHandler "POST"
        (.ok { type := "checkout.session.completed", session := sampleSession })
        false).response.status ≠ 200 := by
  decide

/-- C2 amended: for every verified checkout-completed event with in-band
amount and present email, a failing email dispatch makes the card handler
respond 500 with a failed-to-send-email error (after exactly one dispatch
attempt); the 200 acknowledgment is returned only when the dispatch
succeeds. -/
theorem card_dispatch_failure_returns_500
    (s : Session)
    (hlo : 2800 ≤ s.amount_total) (hhi : s.amount_total ≤ 3100)
    (hemail : jsTruthyStr (jsStrOr s.customerDetailsEmail s.customer_email) = true) :
    cardHandler "POST" (.ok { type := "checkout.session.completed", session := s })
        false =
      { response := { status := 500, error := some .failedToSendEmail },
        emailAttempts := 1 } ∧
    cardHandler "POST" (.ok { type := "checkout.session.completed", session := s })
        true =
      { response := { status := 200, received := true, emailSent := true },
        emailAttempts := 1 } := by
  have hband : ¬ (s.amount_total < 2800 ∨ s.amount_total > 3100) := by omega
  constructor <;> simp +decide [cardHandler, hband, hemail]

/-- Witness for the amended C2 at the concrete in-band session. -/
theorem card_dispatch_failure_returns_500_witness :
    (2800 : Int) ≤ sampleSession.amount_total ∧ sampleSession.amount_total ≤ 3100 ∧
    jsTruthyStr (jsStrOr sampleSession.customerDetailsEmail
      sampleSession.customer_email) = true ∧
    cardHandler "POST"
        (.ok { type := "checkout.session.completed", session := sampleSession })
        false =
      { response := { status := 500, error := some .failedToSendEmail },
        emailAttempts := 1 } :=
  ⟨by decide, by decide, by decide,
    (card_dispatch_failure_returns_500 sampleSession (by decide) (by decide)
      (by decide)).1⟩

/-- C6: for every verified checkout-completed event, an amount outside the
band 2800..3100 is acknowledged 200 as skipped with no dispatch attempt;
an in-band amount with a present email leads to exactly one dispatch
attempt; an in-band amount with no extractable email is answered 400. -/
theorem card_amount_band_controls_email_send
    (s : Session) (emailOk : Bool) :
    ((s.amount_total < 2800 ∨ s.amount_total > 3100) →
      cardHandler "POST" (.ok { type := "checkout.session.completed", session := s })
          emailOk =
        { response := { status := 200, received := true, skipped := true },
          emailAttempts := 0 }) ∧
    (2800 ≤ s.amount_total → s.amount_total ≤ 3100 →
      jsTruthyStr (jsStrOr s.customerDetailsEmail s.customer_email) = true →
      (cardHandler "POST" (.ok { type := "checkout.session.completed", session := s })
          emailOk).emailAttempts = 1) ∧
    (2800 ≤ s.amount_total → s.amount_total ≤ 3100 →
      jsTruthyStr (jsStrOr s.customerDetailsEmail s.customer_email) = false →
      cardHandler "POST" (.ok { type := "checkout.session.completed", session := s })
          emailOk =
        { response := { status := 400, error := some .noCustomerEmail },
          emailAttempts := 0 }) := by
  refine ⟨?_, ?_, ?_⟩
  · intro hout
    simp +decide [cardHandler, hout]
  · intro hlo hhi hemail
    have hband : ¬ (s.amount_total < 2800 ∨ s.amount_total > 3100) := by omega
    rcases hok : emailOk <;> simp +decide [cardHandler, hband, hemail]
  · intro hlo hhi hemail
    have hband : ¬ (s.amount_total < 2800 ∨ s.amount_total > 3100) := by omega
    simp +decide [cardHandler, hband, hemail]

/-- Witness for C6 at concrete sessions: amount 5000 is skipped with no
dispatch, the in-band sample session gets one dispatch attempt, and an
in-band session with no email is answered 400. -/
theorem card_amount_band_controls_email_send_witness :
    ((5000 : Int) < 2800 ∨ (5000 : Int) > 3100) = (False ∨ True) ∧
    cardHandler "POST"
        (.ok { type := "checkout.session.completed",
               session := { amount_total := 5000,
                            customerDetailsEmail := some "buyer@example.com",
                            customer_email := none } }) true =
      { response := { status := 200, received := true, skipped := true },
        emailAttempts := 0 } ∧
    (cardHandler "POST"
        (.ok { type := "checkout.session.completed", session := sampleSession })
        true).emailAttempts = 1 ∧
    cardHandler "POST"
        (.ok { type := "checkout.session.completed",
               session := { amount_total := 2900, customerDetailsEmail := none,
                            customer_email := some "" } }) true =
      { response := { status := 400, error := some .noCustomerEmail },
        emailAttempts := 0 } :=
  ⟨by decide,
    (card_amount_band_controls_email_send
      { amount_total := 5000, customerDetailsEmail := some "buyer@example.com",
        customer_email := none } true).1 (by decide),
    (card_amount_band_controls_email_send sampleSession true).2.1
      (by decide) (by decide) (by decide),
    (card_amount_band_controls_email_send
      { amount_total := 2900, customerDetailsEmail := none,
        customer_email := some "" } true).2.2
      (by decide) (by decide) (by decide)⟩

end FelixCraft

namespace FelixCraft

/-- C3: a matching log whose data decodes to an amount between MIN_AMOUNT
and MAX_AMOUNT makes verification return valid with the amount scaled down
by 1,000,000, and the handler answers 200 success carrying the fixed
download URL and the fixed thank-you URL. -/
theorem in_band_amount_valid_with_fixed_urls
    (wallet : String) (log : EventLog) (topics : List String) (topic2 : String)
    (amount : Nat) (rest : List EventLog) (ok : Bool)
    (e h : String) (hne : e ≠ "") (hnh : h ≠ "")
    (he : emailPatternTest e = true) (hh : txHashPatternTest h = true)
    (haddr : strToLower log.address = strToLower USDC_CONTRACT)
    (htopics : log.topics = some topics)
    (ht0 : topics[0]? = some TRANSFER_TOPIC)
    (ht2 : topics[2]? = some topic2)
    (hdest : wallet = "" ∨ deriveToAddress topic2 = wallet)
    (hamt : parseIntHex log.data = some amount)
    (hband : MIN_AMOUNT ≤ amount ∧ amount ≤ MAX_AMOUNT) :
    verifyUSDCTransfer wallet { status := "0x1", logs := some (log :: rest) } =
      .ok { valid := true, amount := some ((amount : ℚ) / 1000000), reason := none } ∧
    cryptoHandler wallet
        { rpcResult := .ok (some { status := "0x1", logs := some (log :: rest) }),
          emailSendOk := ok }
        "POST" (some { email := some e, txHash := some h }) =
      { response :=
          { status := 200, success := true, downloadUrl := some DOWNLOAD_URL,
            thankYouUrl := some THANK_YOU_URL, error := none },
        rpcCalled := true, emailAttempts := 1 } := by
  have hcond : ¬ (wallet ≠ "" ∧ deriveToAddress topic2 ≠ wallet) := by
    rcases hdest with hd | hd <;> simp [hd]
  have hver : verifyUSDCTransfer wallet
      { status := "0x1", logs := some (log :: rest) } =
      .ok { valid := true, amount := some ((amount : ℚ) / 1000000), reason := none } := by
    simp [verifyUSDCTransfer, scanLogs, stepLog, haddr, htopics, ht0, ht2, hcond,
      hamt, hband]
  refine ⟨hver, ?_⟩
  simp +decide [cryptoHandler, jsTruthyStr, hne, hnh, hh, he, hver]

/-- Witness for C3 at a concrete input: amount 29000000 verifies as valid,
the reported dollar amount is 29, and the handler answers 200 with the
fixed URLs. -/
theorem in_band_amount_valid_with_fixed_urls_witness :
    parseIntHex sampleLogInBand.data = some 29000000 ∧
    MIN_AMOUNT ≤ 29000000 ∧ 29000000 ≤ MAX_AMOUNT ∧
    (((29000000 : Nat) : ℚ) / 1000000) = 29 ∧
    verifyUSDCTransfer "" { status := "0x1", logs := some [sampleLogInBand] } =
      .ok { valid := true, amount := some (((29000000 : Nat) : ℚ) / 1000000),
            reason := none } ∧
    cryptoHandler ""
        { rpcResult := .ok (some
            { status := "0x1", logs := some [sampleLogInBand] }),
          emailSendOk := true }
        "POST" (some { email := some sampleEmail, txHash := some sampleTxHash }) =
      { response :=
          { status := 200, success := true, downloadUrl := some DOWNLOAD_URL,
            thankYouUrl := some THANK_YOU_URL, error := none },
        rpcCalled := true, emailAttempts := 1 } :=
  ⟨by decide, by decide, by decide, by norm_num,
    (in_band_amount_valid_with_fixed_urls "" sampleLogInBand
      [TRANSFER_TOPIC, sampleTopicTo, sampleTopicTo] sampleTopicTo 29000000 []
      true sampleEmail sampleTxHash (by decide) (by decide) (by decide)
      (by decide) (by decide) rfl (by decide) (by decide) (.inl rfl) (by decide)
      (by decide)).1,
    (in_band_amount_valid_with_fixed_urls "" sampleLogInBand
      [TRANSFER_TOPIC, sampleTopicTo, sampleTopicTo] sampleTopicTo 29000000 []
      true sampleEmail sampleTxHash (by decide) (by decide) (by decide)
      (by decide) (by decide) rfl (by decide) (by decide) (.inl rfl) (by decide)
      (by decide)).2⟩

/-- C4: on a POST whose fields fail validation the handler answers 400
with the specific reason and never reaches the RPC fetch, and the
checks run in order — presence of both fields first, then the
transaction-hash pattern, then the email pattern, first failure winning
(the later checks are not consulted once an earlier one fails). -/
theorem input_validation_order_and_no_network_call
    (wallet : String) (env : CryptoEnv) (b : CryptoBody) :
    (¬ (jsTruthyStr b.email = true ∧ jsTruthyStr b.txHash = true) →
      cryptoHandler wallet env "POST" (some b) =
        { response := { status := 400, error := some .emailAndTxHashRequired },
          rpcCalled := false, emailAttempts := 0 }) ∧
    (jsTruthyStr b.email = true → jsTruthyStr b.txHash = true →
      txHashPatternTest (b.txHash.getD "") = false →
      cryptoHandler wallet env "POST" (some b) =
        { response := { status := 400, error := some .invalidTxHashFormat },
          rpcCalled := false, emailAttempts := 0 }) ∧
    (jsTruthyStr b.email = true → jsTruthyStr b.txHash = true →
      txHashPatternTest (b.txHash.getD "") = true →
      emailPatternTest (b.email.getD "") = false →
      cryptoHandler wallet env "POST" (some b) =
        { response := { status := 400, error := some .invalidEmailFormat },
          rpcCalled := false, emailAttempts := 0 }) := by
  refine ⟨?_, ?_, ?_⟩
  · intro hmiss
    simp +decide [cryptoHandler, hmiss]
  · intro he ht hbad
    simp +decide [cryptoHandler, he, ht, hbad]
  · intro he ht hgood hbad
    simp +decide [cryptoHandler, he, ht, hgood, hbad]

/-- Witness for C4 at concrete inputs: a malformed transaction hash is
answered 400 invalid-hash-format with no RPC call even though the
environment would have returned a successful receipt. -/
theorem input_validation_order_and_no_network_call_witness :
    jsTruthyStr (some sampleEmail) = true ∧ jsTruthyStr (some "0x123") = true ∧
    txHashPatternTest ((some "0x123").getD "") = false ∧
    cryptoHandler ""
      { rpcResult := .ok (some { status := "0x1", logs := some [] }),
        emailSendOk := true }
      "POST" (some { email := some sampleEmail, txHash := some "0x123" }) =
      { response := { status := 400, error := some .invalidTxHashFormat },
        rpcCalled := false, emailAttempts := 0 } :=
  ⟨by decide, by decide, by decide,
    (input_validation_order_and_no_network_call ""
      { rpcResult := .ok (some { status := "0x1", logs := some [] }),
        emailSendOk := true }
      { email := some sampleEmail, txHash := some "0x123" }).2.1
      (by decide) (by decide) (by decide)⟩

/-- C7: a missing (null) receipt, or a receipt whose status is not the
success code 0x1, is answered 400 not-found-or-failed whatever the
receipt's logs hold, with no email dispatch attempted. -/
theorem missing_or_failed_receipt_answered_400
    (wallet : String) (ok : Bool) (rcpt : Option Receipt)
    (e h : String) (hne : e ≠ "") (hnh : h ≠ "")
    (he : emailPatternTest e = true) (hh : txHashPatternTest h = true)
    (hr : rcpt = none ∨ ∃ r, rcpt = some r ∧ r.status ≠ "0x1") :
    cryptoHandler wallet { rpcResult := .ok rcpt, emailSendOk := ok } "POST"
        (some { email := some e, txHash := some h }) =
      { response := { status := 400, error := some .txNotFoundOrFailed },
        rpcCalled := true, emailAttempts := 0 } := by
  rcases hr with hr | ⟨r, hr, hs⟩
  · subst hr
    simp +decide [cryptoHandler, jsTruthyStr, hne, hnh, hh, he]
  · subst hr
    simp +decide [cryptoHandler, jsTruthyStr, hne, hnh, hh, he, hs]

/-- Witness for C7 at concrete inputs: a null receipt, and a reverted
receipt (status 0x0) that even contains an in-band matching log, are both
answered 400 not-found-or-failed with no email attempt. -/
theorem missing_or_failed_receipt_answered_400_witness :
    emailPatternTest sampleEmail = true ∧ txHashPatternTest sampleTxHash = true ∧
    ((some { status := "0x0", logs := some [sampleLogInBand] } :
        Option Receipt) = none ∨
      ∃ r, (some { status := "0x0", logs := some [sampleLogInBand] } :
        Option Receipt) = some r ∧ r.status ≠ "0x1") ∧
    cryptoHandler "" { rpcResult := .ok none, emailSendOk := true } "POST"
        (some { email := some sampleEmail, txHash := some sampleTxHash }) =
      { response := { status := 400, error := some .txNotFoundOrFailed },
        rpcCalled := true, emailAttempts := 0 } ∧
    cryptoHandler ""
        { rpcResult := .ok (some { status := "0x0", logs := some [sampleLogInBand] }),
          emailSendOk := true }
        "POST" (some { email := some sampleEmail, txHash := some sampleTxHash }) =
      { response := { status := 400, error := some .txNotFoundOrFailed },
        rpcCalled := true, emailAttempts := 0 } :=
  ⟨by decide, by decide,
    .inr ⟨{ status := "0x0", logs := some [sampleLogInBand] }, rfl, by decide⟩,
    missing_or_failed_receipt_answered_400 "" true none sampleEmail sampleTxHash
      (by decide) (by decide) (by decide) (by decide) (.inl rfl),
    missing_or_failed_receipt_answered_400 "" true
      (some { status := "0x0", logs := some [sampleLogInBand] }) sampleEmail
      sampleTxHash (by decide) (by decide) (by decide) (by decide)
      (.inr ⟨{ status := "0x0", logs := some [sampleLogInBand] }, rfl, by decide⟩)⟩

/-- C9: on a request whose receipt verifies to a valid transfer, a failing
email dispatch does not block success: the handler still answers 200 with
success true and the fixed download and thank-you URLs (after the one
dispatch attempt). -/
theorem email_failure_does_not_block_crypto_success
    (wallet : String) (receipt : Receipt) (transfer : VerificationResult)
    (e h : String) (hne : e ≠ "") (hnh : h ≠ "")
    (he : emailPatternTest e = true) (hh : txHashPatternTest h = true)
    (hstatus : receipt.status = "0x1")
    (hver : verifyUSDCTransfer wallet receipt = .ok transfer)
    (hvalid : transfer.valid = true) :
    cryptoHandler wallet { rpcResult := .ok (some receipt), emailSendOk := false }
        "POST" (some { email := some e, txHash := some h }) =
      { response :=
          { status := 200, success := true, downloadUrl := some DOWNLOAD_URL,
            thankYouUrl := some THANK_YOU_URL, error := none },
        rpcCalled := true, emailAttempts := 1 } := by
  simp +decide [cryptoHandler, jsTruthyStr, hne, hnh, hh, he, hstatus, hver, hvalid]

/-- Witness for C9 at a concrete input: with the in-band receipt and a
failing email dispatch the handler still answers 200 with the fixed URLs. -/
theorem email_failure_does_not_block_crypto_success_witness :
    verifyUSDCTransfer "" { status := "0x1", logs := some [sampleLogInBand] } =
      .ok { valid := true, amount := some (((29000000 : Nat) : ℚ) / 1000000),
            reason := none } ∧
    cryptoHandler ""
        { rpcResult := .ok (some { status := "0x1", logs := some [sampleLogInBand] }),
          emailSendOk := false }
        "POST" (some { email := some sampleEmail, txHash := some sampleTxHash }) =
      { response :=
          { status := 200, success := true, downloadUrl := some DOWNLOAD_URL,
            thankYouUrl := some THANK_YOU_URL, error := none },
        rpcCalled := true, emailAttempts := 1 } :=
  ⟨rfl,
    email_failure_does_not_block_crypto_success ""
      { status := "0x1", logs := some [sampleLogInBand] }
      { valid := true, amount := some (((29000000 : Nat) : ℚ) / 1000000),
        reason := none }
      sampleEmail sampleTxHash (by decide) (by decide) (by decide) (by decide)
      rfl rfl rfl⟩

end FelixCraft
